import Mathlib

/-!
Verification development for the temperaturealert utility (src/main.py).

The program periodically reads a temperature from a serial sensor,
appends a timestamped line to a log file and POSTs the line to a remote
endpoint.  The embedding below translates the source functions into pure
Lean functions; the external world (serial port, wall clock, file system,
network) is passed in explicitly as data, and Python exceptions are
modelled as explicit error values that either get caught (as the source
does) or propagate out of the modelled call.

Numeric model: Python floats are modelled as rationals.  Every quantity
the claims touch (raw/16, *9/5, +32, the quarter-hour arithmetic) is
exact in binary floating point or well within its tolerance, so the
rational model agrees with the float computation on all values used here.
-/

namespace TempAlert

/-- Packet length constant from source: PACKET_LEN = 18. -/
def PACKET_LEN : Nat := 18

/-- Offset of the little-endian int16 temperature field: TEMP1_OFFSET = 9. -/
def TEMP1_OFFSET : Nat := 9

/-- struct.unpack_from with format <h : the signed little-endian 16-bit
integer formed by a low byte and a high byte. -/
def int16_le (lo hi : Fin 256) : ℤ :=
  let u : ℕ := lo.val + 256 * hi.val
  if u < 32768 then (u : ℤ) else (u : ℤ) - 65536

/-- Embedding of read_temperature_f after the serial exchange: the source
reads up to 64 bytes into data, returns None when fewer than PACKET_LEN
bytes arrived, and otherwise unpacks the int16 at TEMP1_OFFSET, divides
by 16 to get Celsius and converts to Fahrenheit. -/
def read_temperature_f (data : List (Fin 256)) : Option ℚ :=
  if data.length < PACKET_LEN then none
  else
    let raw : ℤ := int16_le (data.getD TEMP1_OFFSET 0) (data.getD (TEMP1_OFFSET + 1) 0)
    let celsius : ℚ := (raw : ℚ) / 16
    some (celsius * 9 / 5 + 32)

/-- The spec's decoding formula, stated in its own words: decoded
Fahrenheit = (v/16.0)*9/5 + 32 for the raw int16 value v. -/
def spec_fahrenheit (v : ℤ) : ℚ :=
  ((v : ℚ) / 16) * 9 / 5 + 32

/-- The fields of datetime.now() that seconds_to_next_quarter reads.
datetime guarantees minute < 60, second < 60, microsecond < 1000000;
those bounds are taken as hypotheses where a theorem needs them. -/
structure Now where
  minute : ℕ
  second : ℕ
  microsecond : ℕ

/-- Embedding of seconds_to_next_quarter: elapsed seconds past the last
quarter-hour boundary, subtracted from 15*60. -/
def seconds_to_next_quarter (t : Now) : ℚ :=
  let elapsed : ℚ := ((t.minute % 15) * 60 + t.second : ℕ) + (t.microsecond : ℚ) / 1000000
  15 * 60 - elapsed

/-- The spec's elapsed formula, stated in its own words:
elapsed = (minutes_since_hour mod 15) * 60 + seconds + fractional_seconds. -/
def spec_elapsed (t : Now) : ℚ :=
  ((t.minute % 15 : ℕ) : ℚ) * 60 + (t.second : ℚ) + (t.microsecond : ℚ) / 1000000

/-- An 18-byte packet whose temperature field holds raw value 800
(little-endian bytes 0x20, 0x03 at offsets 9 and 10). -/
def packet800 : List (Fin 256) :=
  List.replicate 9 (0 : Fin 256) ++ [(32 : Fin 256), (3 : Fin 256)] ++ List.replicate 7 (0 : Fin 256)

/-- Round a rational to the nearest integer, ties to even: the rounding
Python applies when formatting a float with the .1f conversion. -/
def roundHalfEven (q : ℚ) : ℤ :=
  let f : ℤ := q.floor
  let frac : ℚ := q - f
  if frac < 1 / 2 then f
  else if 1 / 2 < frac then f + 1
  else if f % 2 = 0 then f else f + 1

/-- Python string formatting with one decimal place (the .1f conversion
applied to the temperature in the f-string of log_temperature), modelled
on the rational value: round to tenths, ties to even, print exactly one
digit after the point. -/
def formatF1 (q : ℚ) : String :=
  let n : ℤ := roundHalfEven (q * 10)
  let sign := if n < 0 then "-" else ""
  let m : ℕ := n.natAbs
  sign ++ toString (m / 10) ++ "." ++ toString (m % 10)

/-- Outcome of the serial exchange inside log_temperature: either
serial.SerialException was raised (caught by the source, which prints a
diagnostic and leaves the temperature absent), or the read delivered a
byte buffer that goes to read_temperature_f. -/
inductive SerialRead where
  | fault (msg : String)
  | bytes (data : List (Fin 256))

/-- The temperature and the diagnostics produced by the try/except block
around read_temperature_f in log_temperature. -/
def serialResult : SerialRead → Option ℚ × List String
  | .fault msg => (none, ["Serial error: " ++ msg])
  | .bytes data => (read_temperature_f data, [])

/-- A Python exception escaping the modelled call: TypeError from
formatting None with the .1f conversion, or an OSError from opening or
writing the log file.  Anything raised by requests.post is caught by the
source and never escapes, so it needs no constructor here. -/
inductive PyErr where
  | typeError
  | osError
deriving DecidableEq

/-- The external world for one log_temperature call: the serial exchange
outcome, the formatted timestamp datetime.now().strftime produces, and
whether the file open, the file write and the HTTP POST each succeed. -/
structure LtEnv where
  serial : SerialRead
  nowTs : String
  openOk : Bool
  writeOk : Bool
  postOk : Bool
  postErr : String

/-- Observable effects of one log_temperature call.  fileWritten lists
the strings appended to the log file, posted the HTTP POST bodies that
were handed to requests.post, postAttempted whether requests.post was
reached at all, fileClosed whether an opened log-file handle was closed
again, and error the exception escaping the call, if any. -/
structure LtResult where
  printed : List String
  fileWritten : List String
  fileClosed : Bool
  posted : List String
  postAttempted : Bool
  error : Option PyErr
deriving DecidableEq

/-- The log line built in log_temperature:
f-string timestamp, space, temperature with one decimal, degree-F. -/
def logLine (ts : String) (t : ℚ) : String :=
  ts ++ " " ++ formatF1 t ++ "°F"

/-- The tail of log_temperature once the temperature (or its absence)
and the serial diagnostics are known.  With an absent temperature the
f-string applies .1f to None and raises TypeError, so nothing is printed
beyond the serial diagnostic, no file is touched and no POST happens.
With a present temperature the line is printed, then written to the file
opened in append mode inside a with-statement (which closes the handle
even when the write raises, but does not catch the error), and finally
posted; any exception from requests.post is caught and reported. -/
def format_and_log (env : LtEnv) (diag : List String) : Option ℚ → LtResult
  | none =>
      { printed := diag, fileWritten := [], fileClosed := false,
        posted := [], postAttempted := false, error := some PyErr.typeError }
  | some t =>
      let line := logLine env.nowTs t
      let pr := diag ++ [line]
      if env.openOk then
        if env.writeOk then
          if env.postOk then
            { printed := pr, fileWritten := [line ++ "\n"], fileClosed := true,
              posted := [line], postAttempted := true, error := none }
          else
            { printed := pr ++ ["Google Doc post failed: " ++ env.postErr],
              fileWritten := [line ++ "\n"], fileClosed := true,
              posted := [], postAttempted := true, error := none }
        else
          { printed := pr, fileWritten := [], fileClosed := true,
            posted := [], postAttempted := false, error := some PyErr.osError }
      else
        { printed := pr, fileWritten := [], fileClosed := false,
          posted := [], postAttempted := false, error := some PyErr.osError }

/-- Embedding of log_temperature: run the guarded serial read, then
format, print, append and post as the source does. -/
def log_temperature (env : LtEnv) : LtResult :=
  format_and_log env (serialResult env.serial).2 (serialResult env.serial).1

/-- The sys.platform branch of the source, which selects the port name
and the remediation hint printed when the port cannot be opened. -/
inductive OSKind where
  | windows
  | mac
  | linux

/-- The remediation tip printed by main when opening the port fails,
per platform branch of the source. -/
def hintLines : OSKind → List String
  | .windows =>
      ["Tip: check Device Manager to confirm the COM port number,",
       "     then update PORT at the top of this script if needed."]
  | _ =>
      ["Tip: run with:  sg dialout -c 'python3 main.py'",
       "     or add yourself to dialout: sudo usermod -aG dialout $USER"]

/-- Run the Running-phase ticks of main in order: concatenate their
console output and stop at the first tick whose exception escapes, as
the while-loop does (only KeyboardInterrupt is caught by main). -/
def runTicks : List LtEnv → List String × Option PyErr
  | [] => ([], none)
  | env :: rest =>
      let r := log_temperature env
      match r.error with
      | some e => (r.printed, some e)
      | none =>
          let rs := runTicks rest
          (r.printed ++ rs.1, rs.2)

/-- Terminal observation of one main run: the process exit status, the
console output, whether the serial connection was opened and closed, and
the exception aborting the run, if any. -/
structure MainResult where
  status : ℕ
  printed : List String
  serOpened : Bool
  serClosed : Bool
  crashedWith : Option PyErr

/-- Embedding of main.  openOk is whether serial.Serial(PORT, BAUD,
timeout=2) succeeds; ticks are the log_temperature calls that happen
before the operator interrupt (the first one is the immediate startup
reading).  On open failure the source prints the error and a platform
hint and calls sys.exit(1).  Otherwise the ticks run; if one raises, the
finally-block still closes the port and the uncaught exception
terminates the interpreter, which exits with status 1.  If the operator
interrupts first, KeyboardInterrupt is caught, Stopped. is printed, the
port is closed and the process ends with status 0.  The per-iteration
console line announcing the next scheduled time is elided: it only
echoes the wall clock and no claim concerns it. -/
def main (openOk : Bool) (os : OSKind) (openErr : String) (ticks : List LtEnv) : MainResult :=
  if openOk then
    let banner := ["Connected to PORT at 9600 baud", "Logging to LOG_FILE"]
    let run := runTicks ticks
    match run.2 with
    | none =>
        { status := 0, printed := banner ++ run.1 ++ ["\nStopped."],
          serOpened := true, serClosed := true, crashedWith := none }
    | some e =>
        { status := 1, printed := banner ++ run.1,
          serOpened := true, serClosed := true, crashedWith := some e }
  else
    { status := 1,
      printed := ("Error: could not open PORT: " ++ openErr) :: hintLines os,
      serOpened := false, serClosed := false, crashedWith := none }

/-- A log_temperature environment whose serial exchange raises
SerialException; everything downstream would succeed. -/
def envFault : LtEnv :=
  { serial := SerialRead.fault "boom", nowTs := "20250101:00:00",
    openOk := true, writeOk := true, postOk := true, postErr := "" }

/-- A log_temperature environment with a good reading whose log-file
write fails; the network would succeed. -/
def envC2 : LtEnv :=
  { serial := SerialRead.bytes packet800, nowTs := "20250101:00:00",
    openOk := true, writeOk := false, postOk := true, postErr := "" }

/-- A log_temperature environment with a good reading whose log-file
write fails while the network is healthy. -/
def envC7 : LtEnv :=
  { serial := SerialRead.bytes packet800, nowTs := "20250101:00:15",
    openOk := true, writeOk := false, postOk := true, postErr := "" }

/-- A log_temperature environment with a good reading, a healthy file
system and a failing POST. -/
def envC7b : LtEnv :=
  { serial := SerialRead.bytes packet800, nowTs := "20250101:00:15",
    openOk := true, writeOk := true, postOk := false, postErr := "timeout" }

/-- A log_temperature environment where everything succeeds. -/
def envC8 : LtEnv :=
  { serial := SerialRead.bytes packet800, nowTs := "20250101:00:30",
    openOk := true, writeOk := true, postOk := true, postErr := "" }

/-- A log_temperature environment with a good reading whose log-file
write fails, used as a Running-phase tick. -/
def envC9 : LtEnv :=
  { serial := SerialRead.bytes packet800, nowTs := "20250101:00:45",
    openOk := true, writeOk := false, postOk := true, postErr := "" }

/-- Decoding the 18-byte packet with raw value 800 gives 122 degrees F. -/
lemma decode_packet800 : read_temperature_f packet800 = some 122 := by
  have hlo : packet800.getD TEMP1_OFFSET 0 = (32 : Fin 256) := by decide
  have hhi : packet800.getD (TEMP1_OFFSET + 1) 0 = (3 : Fin 256) := by decide
  have hlen : ¬ packet800.length < PACKET_LEN := by decide
  have hv : int16_le (32 : Fin 256) (3 : Fin 256) = 800 := by decide
  simp only [read_temperature_f, hlen, if_false, hlo, hhi, hv]
  norm_num

/-- The serial result of a good packet800 exchange. -/
lemma serialResult_packet800 :
    serialResult (SerialRead.bytes packet800) = (some 122, []) := by
  simp [serialResult, decode_packet800]

/-- The temperature component of a good packet800 exchange. -/
lemma serialResult_packet800_fst :
    (serialResult (SerialRead.bytes packet800)).1 = some 122 := by
  simp [serialResult_packet800]

/-- Rounding the scaled temperature 122*10 gives the integer 1220. -/
lemma roundHalfEven_122x10 : roundHalfEven ((122 : ℚ) * 10) = 1220 := by
  have h10 : (122 : ℚ) * 10 = 1220 := by norm_num
  have hfl : ((1220 : ℚ)).floor = 1220 := by
    rw [Rat.floor_def']
    norm_num
  rw [h10]
  simp only [roundHalfEven, hfl]
  norm_num

/-- Formatting the temperature 122 with one decimal gives 122.0. -/
lemma formatF1_122 : formatF1 122 = "122.0" := by
  simp only [formatF1, roundHalfEven_122x10]
  decide

/-- The log line the successful environments produce. -/
lemma logLine_122 (ts : String) : logLine ts 122 = ts ++ " " ++ "122.0" ++ "°F" := by
  simp [logLine, formatF1_122]

/-- Evaluation of log_temperature on the all-successful environment. -/
lemma log_temperature_envC8 :
    log_temperature envC8 =
      { printed := ["20250101:00:30 122.0°F"],
        fileWritten := ["20250101:00:30 122.0°F\n"], fileClosed := true,
        posted := ["20250101:00:30 122.0°F"], postAttempted := true,
        error := none } := by
  unfold log_temperature
  rw [show envC8.serial = SerialRead.bytes packet800 from rfl, serialResult_packet800]
  simp only [format_and_log, logLine_122, envC8]
  decide

/-- Evaluation of log_temperature when the log-file write fails. -/
lemma log_temperature_envC2 :
    log_temperature envC2 =
      { printed := ["20250101:00:00 122.0°F"],
        fileWritten := [], fileClosed := true,
        posted := [], postAttempted := false,
        error := some PyErr.osError } := by
  unfold log_temperature
  rw [show envC2.serial = SerialRead.bytes packet800 from rfl, serialResult_packet800]
  simp only [format_and_log, logLine_122, envC2]
  decide

/-- Evaluation of log_temperature when the log-file write fails,
Running-phase copy. -/
lemma log_temperature_envC9 :
    log_temperature envC9 =
      { printed := ["20250101:00:45 122.0°F"],
        fileWritten := [], fileClosed := true,
        posted := [], postAttempted := false,
        error := some PyErr.osError } := by
  unfold log_temperature
  rw [show envC9.serial = SerialRead.bytes packet800 from rfl, serialResult_packet800]
  simp only [format_and_log, logLine_122, envC9]
  decide

/-- Evaluation of log_temperature when the write fails but the network
is healthy. -/
lemma log_temperature_envC7 :
    log_temperature envC7 =
      { printed := ["20250101:00:15 122.0°F"],
        fileWritten := [], fileClosed := true,
        posted := [], postAttempted := false,
        error := some PyErr.osError } := by
  unfold log_temperature
  rw [show envC7.serial = SerialRead.bytes packet800 from rfl, serialResult_packet800]
  simp only [format_and_log, logLine_122, envC7]
  decide

-- ## Claim theorems

/-- C3: for every buffer of at least 18 bytes, read_temperature_f
extracts the signed little-endian 16-bit integer at byte offset 9 and
returns exactly the spec's Fahrenheit formula (v/16)*9/5 + 32. -/
theorem c3_decode_formula (data : List (Fin 256)) (h : PACKET_LEN ≤ data.length) :
    read_temperature_f data =
      some (spec_fahrenheit (int16_le (data.getD TEMP1_OFFSET 0)
        (data.getD (TEMP1_OFFSET + 1) 0))) := by
  have h' : ¬ data.length < PACKET_LEN := by omega
  simp [read_temperature_f, spec_fahrenheit, h']

/-- C3 witness: on the concrete 18-byte packet carrying raw value 800
the decoder returns 122 degrees Fahrenheit. -/
theorem c3_decode_formula_witness :
    PACKET_LEN ≤ packet800.length ∧ read_temperature_f packet800 = some 122 := by
  refine ⟨by decide, ?_⟩
  have h := c3_decode_formula packet800 (by decide)
  have hlo : packet800.getD TEMP1_OFFSET 0 = (32 : Fin 256) := by decide
  have hhi : packet800.getD (TEMP1_OFFSET + 1) 0 = (3 : Fin 256) := by decide
  rw [h, hlo, hhi]
  have hv : int16_le (32 : Fin 256) (3 : Fin 256) = 800 := by decide
  rw [hv]
  norm_num [spec_fahrenheit]

/-- C4: decoding returns the absent value exactly when the buffer is
shorter than 18 bytes; in particular a buffer of 18 or more bytes is
never rejected (the decoder is total, so it never raises). -/
theorem c4_short_buffer_absent (data : List (Fin 256)) :
    read_temperature_f data = none ↔ data.length < PACKET_LEN := by
  by_cases h : data.length < PACKET_LEN
  · simp [read_temperature_f, h]
  · simp [read_temperature_f, h]

/-- C5: the scheduler returns 900 minus the spec's elapsed quantity for
every current time, and at minute=7, second=30, microsecond=0 it
returns 450. -/
theorem c5_scheduler_formula :
    (∀ t : Now, seconds_to_next_quarter t = 900 - spec_elapsed t) ∧
      seconds_to_next_quarter ⟨7, 30, 0⟩ = 450 := by
  constructor
  · intro t
    simp only [seconds_to_next_quarter, spec_elapsed]
    push_cast
    ring
  · norm_num [seconds_to_next_quarter]

/-- C6: exactly on a quarter-hour boundary the scheduler returns a full
interval of 900 seconds, not 0. -/
theorem c6_boundary_full_interval (t : Now) (h1 : t.minute % 15 = 0)
    (h2 : t.second = 0) (h3 : t.microsecond = 0) :
    seconds_to_next_quarter t = 900 := by
  simp only [seconds_to_next_quarter, h1, h2, h3]
  norm_num

/-- C6 witness: at minute=0, second=0, microsecond=0 the scheduler
returns 900. -/
theorem c6_boundary_full_interval_witness :
    (0 % 15 = 0) ∧ seconds_to_next_quarter ⟨0, 0, 0⟩ = 900 :=
  ⟨by decide, c6_boundary_full_interval ⟨0, 0, 0⟩ rfl rfl rfl⟩

/-- C10: under the datetime bounds on seconds and microseconds the
scheduler's result is strictly positive and at most 900, so the main
loop never sleeps a nonpositive duration. -/
theorem c10_wait_in_range (t : Now) (hs : t.second < 60) (hu : t.microsecond < 1000000) :
    0 < seconds_to_next_quarter t ∧ seconds_to_next_quarter t ≤ 900 := by
  have hm : t.minute % 15 ≤ 14 := Nat.le_of_lt_succ (Nat.mod_lt _ (by norm_num))
  have h1 : ((t.minute % 15) * 60 + t.second : ℕ) ≤ 899 := by omega
  have h1q : (((t.minute % 15) * 60 + t.second : ℕ) : ℚ) ≤ 899 := by exact_mod_cast h1
  have h0q : (0 : ℚ) ≤ (((t.minute % 15) * 60 + t.second : ℕ) : ℚ) := Nat.cast_nonneg _
  have h2 : (t.microsecond : ℚ) / 1000000 < 1 := by
    rw [div_lt_one (by norm_num)]
    exact_mod_cast hu
  have h3 : (0 : ℚ) ≤ (t.microsecond : ℚ) / 1000000 := by positivity
  constructor
  · simp only [seconds_to_next_quarter]
    linarith
  · simp only [seconds_to_next_quarter]
    linarith

/-- C10 witness: at minute=7, second=30, microsecond=0 the wait lies in
the interval (0, 900]. -/
theorem c10_wait_in_range_witness :
    0 < seconds_to_next_quarter ⟨7, 30, 0⟩ ∧ seconds_to_next_quarter ⟨7, 30, 0⟩ ≤ 900 :=
  c10_wait_in_range ⟨7, 30, 0⟩ (by decide) (by decide)

/-- C1: on a failed device read (serial fault or short packet) the
source does NOT produce a log line: formatting the absent value with
the .1f conversion raises TypeError, nothing is appended or posted, and
the exception escapes the tick, crashing the process instead of letting
the loop continue.  This evaluates the code at the failing scenario the
claim describes. -/
theorem c1_absent_reading_crashes (env : LtEnv) (os : OSKind)
    (h : (serialResult env.serial).1 = none) :
    (log_temperature env).error = some PyErr.typeError ∧
    (log_temperature env).fileWritten = [] ∧
    (log_temperature env).posted = [] ∧
    (main true os "" [env]).status = 1 ∧
    (main true os "" [env]).crashedWith = some PyErr.typeError := by
  have hlog : log_temperature env =
      { printed := (serialResult env.serial).2, fileWritten := [], fileClosed := false,
        posted := [], postAttempted := false, error := some PyErr.typeError } := by
    unfold log_temperature
    rw [h]
    simp [format_and_log]
  refine ⟨?_, ?_, ?_, ?_, ?_⟩ <;> simp [hlog, main, runTicks]

/-- C1 witness: a SerialException tick crashes the modelled process
with TypeError and writes nothing. -/
theorem c1_absent_reading_crashes_witness :
    (serialResult envFault.serial).1 = none ∧
    ((log_temperature envFault).error = some PyErr.typeError ∧
      (log_temperature envFault).fileWritten = [] ∧
      (log_temperature envFault).posted = [] ∧
      (main true OSKind.linux "" [envFault]).status = 1 ∧
      (main true OSKind.linux "" [envFault]).crashedWith = some PyErr.typeError) :=
  ⟨rfl, c1_absent_reading_crashes envFault OSKind.linux rfl⟩

/-- C2 counterexample: with a good reading and a failing log-file
write, the write error escapes log_temperature uncaught, and the
single-tick run of main ends as a crash with exit status 1 — the
process does crash, contrary to the claim. -/
theorem c2_counterexample :
    (log_temperature envC2).error = some PyErr.osError ∧
    (main true OSKind.linux "" [envC2]).status = 1 ∧
    (main true OSKind.linux "" [envC2]).crashedWith = some PyErr.osError := by
  refine ⟨?_, ?_, ?_⟩ <;> simp [main, runTicks, log_temperature_envC2]

/-- C2 amended: when the write to the log file fails after a good
reading, the with-statement still releases the file handle, but the
failure is not surfaced as a diagnostic: the OSError propagates out of
the tick (so the loop does not continue) and the POST is never
attempted. -/
theorem c2_amended_write_failure (env : LtEnv) (t : ℚ)
    (h : (serialResult env.serial).1 = some t)
    (ho : env.openOk = true) (hw : env.writeOk = false) :
    (log_temperature env).fileClosed = true ∧
    (log_temperature env).error = some PyErr.osError ∧
    (log_temperature env).postAttempted = false := by
  unfold log_temperature
  rw [h]
  simp [format_and_log, ho, hw]

/-- C2 amended witness: the write-failure environment releases the
handle and propagates the error. -/
theorem c2_amended_write_failure_witness :
    (serialResult envC2.serial).1 = some 122 ∧
    ((log_temperature envC2).fileClosed = true ∧
      (log_temperature envC2).error = some PyErr.osError ∧
      (log_temperature envC2).postAttempted = false) :=
  ⟨serialResult_packet800_fst,
    c2_amended_write_failure envC2 122 serialResult_packet800_fst rfl rfl⟩

/-- C7 counterexample: with a healthy network but a failing log-file
write, the remote submission is never attempted — the file sink's
failure does prevent the network sink, contrary to the claimed two-way
independence. -/
theorem c7_counterexample :
    envC7.postOk = true ∧
    (log_temperature envC7).postAttempted = false ∧
    (log_temperature envC7).posted = [] := by
  refine ⟨rfl, ?_, ?_⟩ <;> simp [log_temperature_envC7]

/-- C7 amended: sink independence holds in one direction only.  A
remote-submission failure never prevents the log-file append (the
append happens first and the POST exception is caught), but a log-file
write failure aborts the tick before requests.post is reached, so the
submission is not attempted. -/
theorem c7_amended_one_way_independence (env : LtEnv) (t : ℚ)
    (h : (serialResult env.serial).1 = some t) (ho : env.openOk = true) :
    (env.writeOk = true →
      (log_temperature env).fileWritten = [logLine env.nowTs t ++ "\n"]) ∧
    (env.writeOk = false → (log_temperature env).postAttempted = false) := by
  unfold log_temperature
  rw [h]
  constructor
  · intro hw
    by_cases hp : env.postOk <;> simp [format_and_log, ho, hw, hp]
  · intro hw
    simp [format_and_log, ho, hw]

/-- C7 amended witness: with a failing POST the line is still appended
to the log file. -/
theorem c7_amended_one_way_independence_witness :
    (log_temperature envC7b).fileWritten = [logLine envC7b.nowTs 122 ++ "\n"] :=
  (c7_amended_one_way_independence envC7b 122 serialResult_packet800_fst rfl).1 rfl

/-- C8 counterexample: on a fully successful tick the POST body is the
bare log line while the file receives the line plus a trailing newline,
so the POSTed body is not the newline-terminated text appended to the
log file. -/
theorem c8_counterexample :
    (log_temperature envC8).posted = ["20250101:00:30 122.0°F"] ∧
    (log_temperature envC8).fileWritten = ["20250101:00:30 122.0°F\n"] ∧
    ("20250101:00:30 122.0°F" : String) ≠ "20250101:00:30 122.0°F\n" := by
  refine ⟨?_, ?_, ?_⟩
  · simp [log_temperature_envC8]
  · simp [log_temperature_envC8]
  · decide

/-- C8 amended: the POST body is the log line text without the trailing
newline; the file append is exactly that body followed by a newline. -/
theorem c8_amended_post_body (env : LtEnv) (t : ℚ)
    (h : (serialResult env.serial).1 = some t) (ho : env.openOk = true)
    (hw : env.writeOk = true) (hp : env.postOk = true) :
    (log_temperature env).posted = [logLine env.nowTs t] ∧
    (log_temperature env).fileWritten = [logLine env.nowTs t ++ "\n"] := by
  unfold log_temperature
  rw [h]
  simp [format_and_log, ho, hw, hp]

/-- C8 amended witness: the fully successful environment posts the bare
line and appends the newline-terminated line. -/
theorem c8_amended_post_body_witness :
    (log_temperature envC8).posted = [logLine envC8.nowTs 122] ∧
    (log_temperature envC8).fileWritten = [logLine envC8.nowTs 122 ++ "\n"] :=
  c8_amended_post_body envC8 122 serialResult_packet800_fst rfl rfl rfl

/-- C9 counterexample: a run whose connection opened fine still ends
with exit status 1 when a per-tick exception (here the log-write
OSError) escapes: Python terminates on the uncaught exception with
status 1, so status 1 is not equivalent to a startup connection
failure. -/
theorem c9_counterexample :
    (main true OSKind.linux "" [envC9]).serOpened = true ∧
    (main true OSKind.linux "" [envC9]).status = 1 := by
  constructor <;> simp [main, runTicks, log_temperature_envC9]

/-- C9 amended: exit status 1 arises when the device connection cannot
be opened (after the diagnostic and the platform-specific hint are
printed) and also when a per-tick exception escapes the Running phase;
exit status 0 arises exactly on operator interrupt with no escaped
tick exception.  The port is closed in every Running-phase outcome. -/
theorem c9_amended_exit_codes (os : OSKind) (err : String) (ticks : List LtEnv) :
    ((main false os err ticks).status = 1 ∧
      (main false os err ticks).printed =
        ("Error: could not open PORT: " ++ err) :: hintLines os) ∧
    ((runTicks ticks).2 = none →
      (main true os err ticks).status = 0 ∧
      (main true os err ticks).serClosed = true) ∧
    (∀ e : PyErr, (runTicks ticks).2 = some e →
      (main true os err ticks).status = 1 ∧
      (main true os err ticks).crashedWith = some e ∧
      (main true os err ticks).serClosed = true) := by
  refine ⟨⟨?_, ?_⟩, ?_, ?_⟩
  · simp [main]
  · simp [main]
  · intro h
    simp [main, h]
  · intro e h
    simp [main, h]

/-- C9 amended witness: an interrupted run with no ticks exits with
status 0 and closes the port. -/
theorem c9_amended_exit_codes_witness :
    (main true OSKind.linux "" []).status = 0 ∧
    (main true OSKind.linux "" []).serClosed = true :=
  (c9_amended_exit_codes OSKind.linux "" []).2.1 rfl

end TempAlert
